import Mathlib

/-!
Shallow embedding of the storage/state-management core of the tile
inventory app (js/storage.js, js/utils.js).

Modelling conventions:
* JS numbers are modelled as rationals (ℚ); `Math.round(x*1000)/1000`
  becomes `round3`, and utils' `roundTo` keeps its `Number.EPSILON` term.
* Timestamps (`new Date().toISOString()`) are threaded as an explicit
  `now : String` argument.
* `generateId` (timestamp + randomness) is modelled as a deterministic
  fresh-id supply indexed by a counter `gen : Nat` that callers thread.
* The single in-memory document cache (`_dbCache`) is passed explicitly
  as a `Document` value; `localStorage` content is a `StoredRaw` value.
* JSON serialization round-trips for well-typed documents, so export
  and import are modelled on the parsed structures directly.
-/

namespace TIA

/-- Stock counter triple `{boxes, pieces, sft}`. -/
structure Stock where
  boxes : ℚ
  pieces : ℚ
  sft : ℚ
deriving Repr, DecidableEq

/-- Product record as built by `addProduct` in js/storage.js. -/
structure Product where
  id : String
  name : String
  category : String
  brand : String
  sku : String
  size : String
  unitType : String
  piecesPerBox : ℚ
  sftPerBox : ℚ
  costPrice : ℚ
  sellingPricePerUnit : ℚ
  currentStock : Option Stock
  minStock : ℚ
  supplierName : String
  supplierContact : String
  location : String
  imageUrl : String
  dateAdded : String
  notes : String
  dateUpdated : Option String := none
deriving Repr, DecidableEq

/-- Line item of a sale or purchase (`{productId, productName, quantity, unitType, unitPrice, totalAmount}`). -/
structure LineItem where
  productId : String
  productName : String
  quantity : ℚ
  unitType : String
  unitPrice : ℚ
  totalAmount : ℚ
deriving Repr, DecidableEq

/-- Sale (transaction) record as built by `addSale`. -/
structure Sale where
  id : String
  dateTime : String
  items : List LineItem
  totalAmount : ℚ
  customerName : String
  customerPhone : String
  paymentMethod : String
  paymentStatus : String
  notes : String
deriving Repr, DecidableEq

/-- Purchase record as built by `addPurchase`. -/
structure Purchase where
  id : String
  dateTime : String
  items : List LineItem
  totalCost : ℚ
  paymentStatus : String
  supplierName : String
  notes : String
deriving Repr, DecidableEq

/-- Low-stock alert record as created by the reconciliation engine. -/
structure Alert where
  id : String
  productId : String
  productName : String
  currentStock : Stock
  minRequired : ℚ
  alertDate : String
  resolved : Bool
  resolvedAt : Option String := none
deriving Repr, DecidableEq

/-- Entry of the (unused by the core) `users` collection; only its `id` matters. -/
structure UserRec where
  id : String
deriving Repr, DecidableEq

/-- Document metadata `{version, createdAt, updatedAt}` (plus `importedAt` set by import). -/
structure Meta where
  version : Nat
  createdAt : String
  updatedAt : String
  importedAt : Option String := none
deriving Repr, DecidableEq

/-- The single top-level DB object stored under key `tia_db_v1`. -/
structure Document where
  meta : Meta
  products : List Product
  sales : List Sale
  purchases : List Purchase
  alerts : List Alert
  users : List UserRec
deriving Repr, DecidableEq

/-- `DB_VERSION` constant of js/storage.js. -/
def DB_VERSION : Nat := 1

/-- `emptyDB()`: fresh document with version-stamped meta and empty collections. -/
def emptyDB (now : String) : Document :=
  { meta := { version := DB_VERSION, createdAt := now, updatedAt := now }
    products := []
    sales := []
    purchases := []
    alerts := []
    users := [] }

/-- `generateId(prefix)`: modelled as a deterministic fresh-id supply indexed
by a counter (the real function uses time and randomness; no property below
relies on the shape or uniqueness of the produced string). -/
def genId (pre : String) (n : Nat) : String :=
  pre ++ "_" ++ toString n

/-- JS `String.prototype.toLowerCase` (ASCII range suffices for the unit
names the code compares against), mapped over the characters. -/
def jsToLower (s : String) : String :=
  ⟨s.data.map Char.toLower⟩

/-- JS `String.prototype.trim`: strip leading and trailing whitespace. -/
def jsTrim (s : String) : String :=
  ⟨((s.data.dropWhile Char.isWhitespace).reverse.dropWhile Char.isWhitespace).reverse⟩

/-! ## js/utils.js -/

/-- `toNumber(v, fallback)`: safe numeric parse. On the rational model every
value is already a finite number, so this is the identity. -/
def toNumber (v : ℚ) : ℚ := v

/-- `normalizeUnitName(unit)` from js/utils.js: normalize unit names to one of
`box`/`piece`/`sft`; unknown (nonempty) names are returned trimmed-lowercased. -/
def normalizeUnitName (unit : String) : String :=
  if unit = "" then "piece"
  else
    let u := jsToLower (jsTrim unit)
    if u = "box" ∨ u = "boxes" then "box"
    else if u = "piece" ∨ u = "pieces" ∨ u = "pc" ∨ u = "pcs" then "piece"
    else if u = "sft" ∨ u = "s.f.t" ∨ u = "sqft" ∨ u = "squarefeet" ∨ u = "square feet" then "sft"
    else u

/-- `Number.EPSILON` (2⁻⁵²), used by `roundTo`. -/
def epsJS : ℚ := 1 / 2 ^ 52

/-- JS `Math.round`: round half toward positive infinity. -/
def jsRound (v : ℚ) : ℚ := (Int.floor (v + 1/2) : ℚ)

/-- `roundTo(v, decimals)` from js/utils.js: `Math.round((v + EPSILON) * p) / p`. -/
def roundTo (v : ℚ) (decimals : Nat := 3) : ℚ :=
  let p : ℚ := 10 ^ decimals
  jsRound ((toNumber v + epsJS) * p) / p

/-- `boxesNeededForSft(requiredSft, sftPerBox)` from js/utils.js. -/
def boxesNeededForSft (requiredSft sftPerBox : ℚ) : ℚ :=
  if sftPerBox ≤ 0 then 0 else (Int.ceil (requiredSft / sftPerBox) : ℚ)

/-- `convertUnits(quantity, fromUnit, toUnit, piecesPerBox, sftPerBox)` from
js/utils.js: convert via the pivot unit box; `none` models the `NaN` sentinel
returned when a required conversion factor is missing. -/
def convertUnits (quantity : ℚ) (fromUnit toUnit : String)
    (piecesPerBox : ℚ := 0) (sftPerBox : ℚ := 0) : Option ℚ :=
  let q := toNumber quantity
  let f := normalizeUnitName fromUnit
  let t := normalizeUnitName toUnit
  if f = t then some (roundTo q)
  else
    let boxes? : Option ℚ :=
      if f = "box" then some q
      else if f = "piece" then
        if toNumber piecesPerBox ≤ 0 then none else some (q / toNumber piecesPerBox)
      else if f = "sft" then
        if toNumber sftPerBox ≤ 0 then none else some (q / toNumber sftPerBox)
      else
        if toNumber piecesPerBox ≤ 0 then none else some (q / toNumber piecesPerBox)
    match boxes? with
    | none => none
    | some boxes =>
      if t = "box" then some (roundTo boxes)
      else if t = "piece" then
        if toNumber piecesPerBox ≤ 0 then none else some (roundTo (boxes * toNumber piecesPerBox))
      else if t = "sft" then
        if toNumber sftPerBox ≤ 0 then none else some (roundTo (boxes * toNumber sftPerBox))
      else none

/-! ## js/storage.js: stock reconciliation -/

/-- Inline rounding in the reconciliation code: `Math.round(x * 1000) / 1000`. -/
def round3 (v : ℚ) : ℚ := jsRound (v * 1000) / 1000

/-- Default stock object `{boxes: 0, pieces: 0, sft: 0}`. -/
def defaultStock : Stock := ⟨0, 0, 0⟩

/-- Round all three stock counters to 3 decimal places, as done after every
stock mutation in `_applyStockChangesFromSale` / `_applyStockChangesFromPurchase`. -/
def roundStock (st : Stock) : Stock :=
  ⟨round3 st.boxes, round3 st.pieces, round3 st.sft⟩

/-- Sale branch of the unit dispatch: subtract `qty` from the counter selected
by the lowercased `unitType` (`box`/`boxes`, `piece`/`pieces`,
`sft`/`s.f.t`/`squarefeet`/`square feet`; anything else hits the piece
counter), then round the three counters. -/
def applySaleStock (p : Product) (u : String) (qty : ℚ) : Product :=
  let st := p.currentStock.getD defaultStock
  let st :=
    if u = "box" ∨ u = "boxes" then { st with boxes := toNumber st.boxes - qty }
    else if u = "piece" ∨ u = "pieces" then { st with pieces := toNumber st.pieces - qty }
    else if u = "sft" ∨ u = "s.f.t" ∨ u = "squarefeet" ∨ u = "square feet" then
      { st with sft := toNumber st.sft - qty }
    else { st with pieces := toNumber st.pieces - qty }
  { p with currentStock := some (roundStock st) }

/-- Purchase branch of the unit dispatch: add `qty` to the selected counter
(note: unlike the sale branch, `s.f.t` is absent from the sft synonym list),
then round the three counters. -/
def applyPurchaseStock (p : Product) (u : String) (qty : ℚ) : Product :=
  let st := p.currentStock.getD defaultStock
  let st :=
    if u = "box" ∨ u = "boxes" then { st with boxes := toNumber st.boxes + qty }
    else if u = "piece" ∨ u = "pieces" then { st with pieces := toNumber st.pieces + qty }
    else if u = "sft" ∨ u = "squarefeet" ∨ u = "square feet" then
      { st with sft := toNumber st.sft + qty }
    else { st with pieces := toNumber st.pieces + qty }
  { p with currentStock := some (roundStock st) }

/-- In-place mutation of the first array element whose `id` matches (JS
`Array.prototype.find` returns a reference into the array). -/
def replaceFirst (ps : List Product) (pid : String) (f : Product → Product) : List Product :=
  match ps with
  | [] => []
  | p :: rest => if p.id == pid then f p :: rest else p :: replaceFirst rest pid f

/-- Low-stock condition checked after a sale decrement:
`(boxes ≤ min ∧ min > 0) ∨ (pieces ≤ min ∧ min > 0) ∨ (sft ≤ min ∧ min > 0)`. -/
def lowStockCond (st : Stock) (mn : ℚ) : Prop :=
  (st.boxes ≤ mn ∧ mn > 0) ∨ (st.pieces ≤ mn ∧ mn > 0) ∨ (st.sft ≤ mn ∧ mn > 0)

instance (st : Stock) (mn : ℚ) : Decidable (lowStockCond st mn) := by
  unfold lowStockCond; infer_instance

/-- Recovery condition checked after a purchase increment:
`(boxes ≥ min ∧ min > 0) ∨ (pieces ≥ min ∧ min > 0) ∨ (sft ≥ min ∧ min > 0)`. -/
def backAboveCond (st : Stock) (mn : ℚ) : Prop :=
  (st.boxes ≥ mn ∧ mn > 0) ∨ (st.pieces ≥ mn ∧ mn > 0) ∨ (st.sft ≥ mn ∧ mn > 0)

instance (st : Stock) (mn : ℚ) : Decidable (backAboveCond st mn) := by
  unfold backAboveCond; infer_instance

/-- Mutable state threaded through the per-item loop of
`_applyStockChangesFromSale`: the locally loaded `products` array, the alerts
collection as currently cached (re-fetched each iteration), and the fresh-id
counter. -/
structure SaleRecState where
  products : List Product
  alerts : List Alert
  gen : Nat
deriving Repr, DecidableEq

/-- One iteration of the item loop in `_applyStockChangesFromSale`: resolve the
product (skip the item if absent), subtract the quantity from the matching
counter, round, and create a low-stock alert unless an unresolved one already
exists for this product. -/
def saleItemStep (now : String) (st : SaleRecState) (item : LineItem) : SaleRecState :=
  match st.products.find? (fun p => p.id == item.productId) with
  | none => st
  | some product =>
    let qty := toNumber item.quantity
    let u := jsToLower item.unitType
    let product := applySaleStock product u qty
    let products := replaceFirst st.products item.productId (fun _ => product)
    let mn := toNumber product.minStock
    let stock := product.currentStock.getD defaultStock
    if lowStockCond stock mn then
      match st.alerts.find? (fun a => a.productId == product.id && !a.resolved) with
      | some _ => { st with products := products }
      | none =>
        let alert : Alert :=
          { id := genId "alert" st.gen
            productId := product.id
            productName := product.name
            currentStock := stock
            minRequired := mn
            alertDate := now
            resolved := false
            resolvedAt := none }
        { products := products, alerts := st.alerts ++ [alert], gen := st.gen + 1 }
    else { st with products := products }

/-- `_applyStockChangesFromSale(sale)`: reduce stock for each line item and
create low-stock alerts; finally persist the products collection.  Returns the
resulting cached document together with the advanced id counter. -/
def applyStockChangesFromSale (sale : Sale) (db : Document) (gen : Nat) (now : String) :
    Document × Nat :=
  let st := sale.items.foldl (saleItemStep now) ⟨db.products, db.alerts, gen⟩
  ({ db with products := st.products, alerts := st.alerts }, st.gen)

/-- State threaded through the per-item loop of `_applyStockChangesFromPurchase`. -/
structure PurchRecState where
  products : List Product
  alerts : List Alert
deriving Repr, DecidableEq

/-- Mark every unresolved alert of a product resolved, stamping `resolvedAt`. -/
def resolveAlertsFor (pid : String) (now : String) (alerts : List Alert) : List Alert :=
  alerts.map fun a =>
    if a.productId == pid && !a.resolved then
      { a with resolved := true, resolvedAt := some now }
    else a

/-- One iteration of the item loop in `_applyStockChangesFromPurchase`: resolve
the product (skip if absent), add the quantity to the matching counter, round,
and if the stock is back at/above `minStock` resolve every unresolved alert for
the product (the alerts collection is only re-saved when something changed). -/
def purchaseItemStep (now : String) (st : PurchRecState) (item : LineItem) : PurchRecState :=
  match st.products.find? (fun p => p.id == item.productId) with
  | none => st
  | some product =>
    let qty := toNumber item.quantity
    let u := jsToLower item.unitType
    let product := applyPurchaseStock product u qty
    let products := replaceFirst st.products item.productId (fun _ => product)
    let mn := toNumber product.minStock
    let stock := product.currentStock.getD defaultStock
    if backAboveCond stock mn then
      let changed := st.alerts.any (fun a => a.productId == product.id && !a.resolved)
      { products := products
        alerts := if changed then resolveAlertsFor product.id now st.alerts else st.alerts }
    else { st with products := products }

/-- `_applyStockChangesFromPurchase(purchase)`: add stock for each line item and
auto-resolve alerts; finally persist the products collection. -/
def applyStockChangesFromPurchase (purchase : Purchase) (db : Document) (now : String) :
    Document :=
  let st := purchase.items.foldl (purchaseItemStep now) ⟨db.products, db.alerts⟩
  { db with products := st.products, alerts := st.alerts }

/-! ## js/storage.js: collection CRUD and transaction recording

`_getCollection(name)` reads the named array out of the cached document and
`_saveCollection(name, coll)` writes it back through `saveDB`; both are
modelled by direct field access/update on the `Document` value representing
the cache (`saveDB` does not touch `meta` on the cached copy, see `saveDB`
below). -/

/-- Keys the caller may supply to `addProduct` (JS `Object.assign` semantics:
a present key overrides the corresponding default). -/
structure ProductData where
  id : Option String := none
  name : Option String := none
  category : Option String := none
  brand : Option String := none
  sku : Option String := none
  size : Option String := none
  unitType : Option String := none
  piecesPerBox : Option ℚ := none
  sftPerBox : Option ℚ := none
  costPrice : Option ℚ := none
  sellingPricePerUnit : Option ℚ := none
  currentStock : Option Stock := none
  minStock : Option ℚ := none
  supplierName : Option String := none
  supplierContact : Option String := none
  location : Option String := none
  imageUrl : Option String := none
  dateAdded : Option String := none
  notes : Option String := none
deriving Repr, DecidableEq

/-- `addProduct(productData)`: `Object.assign` of the supplied keys over the
generated defaults, then push onto the products collection and save it. -/
def addProduct (productData : ProductData) (db : Document) (gen : Nat) (now : String) :
    Product × Document :=
  let product : Product :=
    { id := productData.id.getD (genId "prod" gen)
      name := productData.name.getD ""
      category := productData.category.getD ""
      brand := productData.brand.getD ""
      sku := productData.sku.getD ""
      size := productData.size.getD ""
      unitType := productData.unitType.getD "Box"
      piecesPerBox := productData.piecesPerBox.getD 0
      sftPerBox := productData.sftPerBox.getD 0
      costPrice := productData.costPrice.getD 0
      sellingPricePerUnit := productData.sellingPricePerUnit.getD 0
      currentStock := some (productData.currentStock.getD defaultStock)
      minStock := productData.minStock.getD 0
      supplierName := productData.supplierName.getD ""
      supplierContact := productData.supplierContact.getD ""
      location := productData.location.getD ""
      imageUrl := productData.imageUrl.getD ""
      dateAdded := productData.dateAdded.getD now
      notes := productData.notes.getD ""
      dateUpdated := none }
  (product, { db with products := db.products ++ [product] })

/-- Keys the caller may supply to `addSale`. -/
structure SaleData where
  id : Option String := none
  dateTime : Option String := none
  items : Option (List LineItem) := none
  totalAmount : Option ℚ := none
  customerName : Option String := none
  customerPhone : Option String := none
  paymentMethod : Option String := none
  paymentStatus : Option String := none
  notes : Option String := none
deriving Repr, DecidableEq

/-- Defaults-plus-overrides construction of the sale record in `addSale`. -/
def mkSale (saleData : SaleData) (gen : Nat) (now : String) : Sale :=
  { id := saleData.id.getD (genId "sale" gen)
    dateTime := saleData.dateTime.getD now
    items := saleData.items.getD []
    totalAmount := saleData.totalAmount.getD 0
    customerName := saleData.customerName.getD ""
    customerPhone := saleData.customerPhone.getD ""
    paymentMethod := saleData.paymentMethod.getD "Cash"
    paymentStatus := saleData.paymentStatus.getD "Paid"
    notes := saleData.notes.getD "" }

/-- `addSale(saleData)`: build the sale record, append it to the sales
collection and save, then run stock reconciliation (whose failure is caught
and logged; see `addSaleF` for the failure-injected model). -/
def addSale (saleData : SaleData) (db : Document) (gen : Nat) (now : String) :
    Sale × Document × Nat :=
  let sale := mkSale saleData gen now
  let db1 := { db with sales := db.sales ++ [sale] }
  let (db2, gen2) := applyStockChangesFromSale sale db1 (gen + 1) now
  (sale, db2, gen2)

/-- Keys the caller may supply to `addPurchase`. -/
structure PurchaseData where
  id : Option String := none
  dateTime : Option String := none
  items : Option (List LineItem) := none
  totalCost : Option ℚ := none
  paymentStatus : Option String := none
  supplierName : Option String := none
  notes : Option String := none
deriving Repr, DecidableEq

/-- Defaults-plus-overrides construction of the purchase record in `addPurchase`. -/
def mkPurchase (purchaseData : PurchaseData) (gen : Nat) (now : String) : Purchase :=
  { id := purchaseData.id.getD (genId "pur" gen)
    dateTime := purchaseData.dateTime.getD now
    items := purchaseData.items.getD []
    totalCost := purchaseData.totalCost.getD 0
    paymentStatus := purchaseData.paymentStatus.getD "Pending"
    supplierName := purchaseData.supplierName.getD ""
    notes := purchaseData.notes.getD "" }

/-- `addPurchase(purchaseData)`: build the purchase record, append it to the
purchases collection and save, then run stock reconciliation. -/
def addPurchase (purchaseData : PurchaseData) (db : Document) (gen : Nat) (now : String) :
    Purchase × Document :=
  let purchase := mkPurchase purchaseData gen now
  let db1 := { db with purchases := db.purchases ++ [purchase] }
  let db2 := applyStockChangesFromPurchase purchase db1 now
  (purchase, db2)

/-! ## Failure-injected reconciliation (for the catch in `addSale`/`addPurchase`)

Reconciliation runs after the transaction record is already persisted; the
only effects it performs besides pure computation are `_saveCollection`
calls (each going through `adapter.save`), which can throw when the backend
fails.  `mask k = true` makes the `k`-th save attempt of the reconciliation
throw.  A failed save leaves the cache as it was before that save (in
`saveDB` the cache is only replaced after `adapter.save` succeeds), and the
exception propagates out of the reconciliation helper into the `catch` of
`addSale`/`addPurchase`. -/

/-- Loop state of the failure-injected sale reconciliation: additionally
counts the save attempts performed so far. -/
structure SaleRecStateF where
  products : List Product
  alerts : List Alert
  gen : Nat
  saveIx : Nat
deriving Repr, DecidableEq

/-- One iteration of the item loop of `_applyStockChangesFromSale` with
failure injection on the alert saves.  A thrown save aborts the loop carrying
the cache content at that moment: the alerts as last successfully saved and
the id counter already advanced (the alert id was generated before the save). -/
def saleItemStepF (mask : Nat → Bool) (now : String) (st : SaleRecStateF) (item : LineItem) :
    Except (List Alert × Nat) SaleRecStateF :=
  match st.products.find? (fun p => p.id == item.productId) with
  | none => .ok st
  | some product =>
    let qty := toNumber item.quantity
    let u := jsToLower item.unitType
    let product := applySaleStock product u qty
    let products := replaceFirst st.products item.productId (fun _ => product)
    let mn := toNumber product.minStock
    let stock := product.currentStock.getD defaultStock
    if lowStockCond stock mn then
      match st.alerts.find? (fun a => a.productId == product.id && !a.resolved) with
      | some _ => .ok { st with products := products }
      | none =>
        let alert : Alert :=
          { id := genId "alert" st.gen
            productId := product.id
            productName := product.name
            currentStock := stock
            minRequired := mn
            alertDate := now
            resolved := false
            resolvedAt := none }
        if mask st.saveIx then .error (st.alerts, st.gen + 1)
        else
          .ok { products := products, alerts := st.alerts ++ [alert], gen := st.gen + 1
                saveIx := st.saveIx + 1 }
    else .ok { st with products := products }

/-- `_applyStockChangesFromSale` with failure injection: `.error` carries the
cached document at the moment the failed save threw (the products collection
is only saved at the very end, so on any throw it is still the one the sale
left behind). -/
def applyStockChangesFromSaleF (mask : Nat → Bool) (sale : Sale) (db : Document)
    (gen : Nat) (now : String) : Except (Document × Nat) (Document × Nat) :=
  match sale.items.foldlM (saleItemStepF mask now) ⟨db.products, db.alerts, gen, 0⟩ with
  | .error (alerts, g) => .error ({ db with alerts := alerts }, g)
  | .ok st =>
    if mask st.saveIx then .error ({ db with alerts := st.alerts }, st.gen)
    else .ok ({ db with products := st.products, alerts := st.alerts }, st.gen)

/-- `addSale` with failure injection in the reconciliation step: the `catch`
turns a thrown reconciliation into the state it left behind, and the sale is
returned either way. -/
def addSaleF (mask : Nat → Bool) (saleData : SaleData) (db : Document) (gen : Nat)
    (now : String) : Sale × Document × Nat :=
  let sale := mkSale saleData gen now
  let db1 := { db with sales := db.sales ++ [sale] }
  match applyStockChangesFromSaleF mask sale db1 (gen + 1) now with
  | .ok (db2, gen2) => (sale, db2, gen2)
  | .error (db2, gen2) => (sale, db2, gen2)

/-- Loop state of the failure-injected purchase reconciliation. -/
structure PurchRecStateF where
  products : List Product
  alerts : List Alert
  saveIx : Nat
deriving Repr, DecidableEq

/-- One iteration of the item loop of `_applyStockChangesFromPurchase` with
failure injection on the (conditional) alert saves. -/
def purchaseItemStepF (mask : Nat → Bool) (now : String) (st : PurchRecStateF)
    (item : LineItem) : Except (List Alert) PurchRecStateF :=
  match st.products.find? (fun p => p.id == item.productId) with
  | none => .ok st
  | some product =>
    let qty := toNumber item.quantity
    let u := jsToLower item.unitType
    let product := applyPurchaseStock product u qty
    let products := replaceFirst st.products item.productId (fun _ => product)
    let mn := toNumber product.minStock
    let stock := product.currentStock.getD defaultStock
    if backAboveCond stock mn then
      let changed := st.alerts.any (fun a => a.productId == product.id && !a.resolved)
      if changed then
        if mask st.saveIx then .error st.alerts
        else
          .ok { products := products, alerts := resolveAlertsFor product.id now st.alerts
                saveIx := st.saveIx + 1 }
      else .ok { st with products := products }
    else .ok { st with products := products }

/-- `_applyStockChangesFromPurchase` with failure injection. -/
def applyStockChangesFromPurchaseF (mask : Nat → Bool) (purchase : Purchase)
    (db : Document) (now : String) : Except Document Document :=
  match purchase.items.foldlM (purchaseItemStepF mask now) ⟨db.products, db.alerts, 0⟩ with
  | .error alerts => .error { db with alerts := alerts }
  | .ok st =>
    if mask st.saveIx then .error { db with alerts := st.alerts }
    else .ok { db with products := st.products, alerts := st.alerts }

/-- `addPurchase` with failure injection in the reconciliation step. -/
def addPurchaseF (mask : Nat → Bool) (purchaseData : PurchaseData) (db : Document)
    (gen : Nat) (now : String) : Purchase × Document :=
  let purchase := mkPurchase purchaseData gen now
  let db1 := { db with purchases := db.purchases ++ [purchase] }
  match applyStockChangesFromPurchaseF mask purchase db1 now with
  | .ok db2 => (purchase, db2)
  | .error db2 => (purchase, db2)

/-! ## js/storage.js: adapter, controller, import/export

The serialized text under the `tia_db_v1` key is modelled by its parsed
shape: an arbitrary stored JSON document is an `OldDoc` (every collection and
the meta object may be absent), and the raw storage cell is a `StoredRaw`
(absent key, unparseable text, or parsed document).  `JSON.stringify` /
`JSON.parse` round-trip for well-typed documents, so serialization itself is
not re-modelled. -/

/-- Parsed form of an arbitrary stored/imported JSON document: every field the
code looks at may be absent.  A present collection field is modelled as a
list (the code only checks presence / `Array.isArray`). -/
structure OldDoc where
  meta : Option Meta := none
  products : Option (List Product) := none
  sales : Option (List Sale) := none
  purchases : Option (List Purchase) := none
  alerts : Option (List Alert) := none
  users : Option (List UserRec) := none
deriving Repr, DecidableEq

/-- View of a well-typed `Document` as a parsed JSON document. -/
def toOld (d : Document) : OldDoc :=
  { meta := some d.meta
    products := some d.products
    sales := some d.sales
    purchases := some d.purchases
    alerts := some d.alerts
    users := some d.users }

/-- Content of the `tia_db_v1` localStorage cell. -/
inductive StoredRaw where
  | absent
  | corrupt
  | parsed (d : OldDoc)
deriving Repr, DecidableEq

/-- Read a parsed `OldDoc` back as a `Document` (used on the version-match
branch of `load`; absent collections read as empty via `_getCollection`). -/
def ofOld (meta : Meta) (od : OldDoc) : Document :=
  { meta := meta
    products := od.products.getD []
    sales := od.sales.getD []
    purchases := od.purchases.getD []
    alerts := od.alerts.getD []
    users := od.users.getD [] }

/-- `LocalStorageAdapter.load()`: first-use materializes a fresh empty
document; a version mismatch (or missing meta) migrates by copying
`products`/`sales`/`purchases` into a fresh empty document (dropping alerts
and users) and persisting it; corrupt text resets to a fresh empty document.
Returns the loaded document and the new cell content. -/
def LocalStorageAdapter.load (raw : StoredRaw) (now : String) : Document × StoredRaw :=
  match raw with
  | .absent =>
    let db := emptyDB now
    (db, .parsed (toOld db))
  | .corrupt =>
    let db := emptyDB now
    (db, .parsed (toOld db))
  | .parsed od =>
    match od.meta with
    | some m =>
      if m.version = DB_VERSION then (ofOld m od, raw)
      else
        let migrated : Document :=
          { emptyDB now with
              products := od.products.getD []
              sales := od.sales.getD []
              purchases := od.purchases.getD []
              meta := { (emptyDB now).meta with updatedAt := now } }
        (migrated, .parsed (toOld migrated))
    | none =>
      let migrated : Document :=
        { emptyDB now with
            products := od.products.getD []
            sales := od.sales.getD []
            purchases := od.purchases.getD []
            meta := { (emptyDB now).meta with updatedAt := now } }
      (migrated, .parsed (toOld migrated))

/-- `LocalStorageAdapter.save(dbObj)`: persist a deep copy with
`meta.updatedAt` stamped to now.  The stamped copy is what reaches the
storage cell — not the caller's object. -/
def LocalStorageAdapter.save (db : Document) (now : String) : StoredRaw :=
  .parsed (toOld { db with meta := { db.meta with updatedAt := now } })

/-- Storage controller state: the persisted cell and the in-memory cache
(`_dbCache`).  The registered watcher list carries no data relevant to the
properties below; `saveDB` instead returns the document value each watcher
receives. -/
structure StoreState where
  stored : StoredRaw
  cache : Option Document
deriving Repr, DecidableEq

/-- `loadDB(force)`: answer from the cache unless it is empty or `force` is
set; otherwise consult the adapter and refill the cache. -/
def loadDB (s : StoreState) (now : String) (force : Bool := false) : Document × StoreState :=
  match s.cache, force with
  | some c, false => (c, s)
  | _, _ =>
    let (db, raw) := LocalStorageAdapter.load s.stored now
    (db, { stored := raw, cache := some db })

/-- `saveDB(dbObj)`: delegate to `adapter.save` (which stamps `updatedAt` on
the persisted copy), then replace the cache with a deep copy of the caller's
object, then notify every watcher with a deep copy of the cache.  The second
component is the document value passed to each watcher. -/
def saveDB (db : Document) (_s : StoreState) (now : String) : StoreState × Document :=
  ({ stored := LocalStorageAdapter.save db now, cache := some db }, db)

/-- `exportDB()`: serialize the cached document; the result is the parsed
shape of the produced JSON text. -/
def exportDB (db : Document) : OldDoc := toOld db

/-- `mergeArray(targetArr, incomingArr)` inside `importDB`: append incoming
entities whose (nonempty) id is not already present in the target; the id set
is computed from the target once, up front. -/
def mergeArray (getId : α → String) (target : List α) (incoming : Option (List α)) : List α :=
  match incoming with
  | none => target
  | some inc =>
    target ++ inc.filter (fun it => getId it ≠ "" ∧ ¬ target.any (fun t => getId t == getId it))

/-- `importDB(jsonString, merge)` on successfully parsed input: `merge=false`
rebuilds a fresh document taking each collection from the input when it is an
array, stamps `importedAt`, and saves it; `merge=true` appends incoming
entities with fresh ids to each collection of the current document.  Returns
the document handed to `saveDB` (which is also the function's return value). -/
def importDB (parsed : OldDoc) (merge : Bool) (db : Document) (now : String) : Document :=
  if ¬ merge then
    let base := emptyDB now
    { base with
        products := parsed.products.getD base.products
        sales := parsed.sales.getD base.sales
        purchases := parsed.purchases.getD base.purchases
        alerts := parsed.alerts.getD base.alerts
        users := parsed.users.getD base.users
        meta := { base.meta with importedAt := some now } }
  else
    { db with
        products := mergeArray Product.id db.products parsed.products
        sales := mergeArray Sale.id db.sales parsed.sales
        purchases := mergeArray Purchase.id db.purchases parsed.purchases
        alerts := mergeArray Alert.id db.alerts parsed.alerts
        users := mergeArray UserRec.id db.users parsed.users }

/-! ## Observation helpers -/

/-- Stock of the product with the given id (first match, as `Array.find`). -/
def productStock (db : Document) (pid : String) : Option Stock :=
  (db.products.find? (fun p => p.id == pid)).bind (fun p => p.currentStock)

/-- Number of unresolved alerts recorded for a product (the predicate is the
one the reconciliation engine uses to look for an existing alert). -/
def unresolvedFor (alerts : List Alert) (pid : String) : Nat :=
  (alerts.filter (fun a => a.productId == pid && !a.resolved)).length

/-- At most one unresolved alert per product. -/
def alertInvariant (alerts : List Alert) : Prop :=
  ∀ pid, unresolvedFor alerts pid ≤ 1

/-- Spec-side characterization (§4.5/§7) of the input region where
`convertUnits` signals the conversion-unavailable sentinel: the units differ
and a required factor (`piecesPerBox` for conversions involving pieces,
`sftPerBox` for conversions involving area) is zero or missing. -/
def conversionUnavailable (nf nt : String) (ppb spb : ℚ) : Prop :=
  nf ≠ nt ∧
    (((nf = "piece" ∨ nt = "piece") ∧ ppb = 0) ∨ ((nf = "sft" ∨ nt = "sft") ∧ spb = 0))

/-- Spec-side conversion value (§4.5, stated from the spec's words): treat box
as the pivot unit and convert `from → box → to`; the trivial case returns the
quantity unchanged. -/
def specPivotConvert (q : ℚ) (nf nt : String) (ppb spb : ℚ) : ℚ :=
  if nf = nt then q
  else
    let boxes := if nf = "box" then q else if nf = "piece" then q / ppb else q / spb
    if nt = "box" then boxes else if nt = "piece" then boxes * ppb else boxes * spb

/-! ## Concrete fixtures used by the claim theorems and their witnesses -/

/-- Product of the worked sale/purchase reconciliation example:
`currentStock.boxes = 5`, `minStock = 2`. -/
def exProduct : Product :=
  { id := "p1", name := "Tile A", category := "", brand := "", sku := "", size := ""
    unitType := "Box", piecesPerBox := 0, sftPerBox := 0, costPrice := 0
    sellingPricePerUnit := 0, currentStock := some ⟨5, 0, 0⟩, minStock := 2
    supplierName := "", supplierContact := "", location := "", imageUrl := ""
    dateAdded := "t0", notes := "", dateUpdated := none }

/-- Initial document of the worked example: one product, no alerts. -/
def exDB0 : Document := { emptyDB "t0" with products := [exProduct] }

/-- Sale line item of `qty` boxes of `exProduct`. -/
def exItem (qty : ℚ) : LineItem :=
  { productId := "p1", productName := "Tile A", quantity := qty, unitType := "Box"
    unitPrice := 0, totalAmount := 0 }

/-- State after recording the first sale (4 boxes). -/
def exStep1 : Sale × Document × Nat := addSale { items := some [exItem 4] } exDB0 0 "t1"

/-- State after recording the second sale (1 more box). -/
def exStep2 : Sale × Document × Nat :=
  addSale { items := some [exItem 1] } exStep1.2.1 exStep1.2.2 "t2"

/-- State after recording the restocking purchase (5 boxes). -/
def exStep3 : Purchase × Document :=
  addPurchase { items := some [exItem 5] } exStep2.2.1 exStep2.2.2 "t3"

/-- Product used by the unit-dispatch example: plenty of stock in every
counter and `minStock = 0`, so no alert logic interferes. -/
def unitProduct : Product :=
  { exProduct with id := "p2", currentStock := some ⟨10, 10, 10⟩, minStock := 0 }

/-- Document holding only `unitProduct`. -/
def unitDB : Document := { emptyDB "t0" with products := [unitProduct] }

/-- Sale of 1 unit of `unitProduct` with the given raw unit-type string. -/
def unitSale (u : String) : Sale :=
  mkSale { items := some [{ productId := "p2", productName := "", quantity := 1
                            unitType := u, unitPrice := 0, totalAmount := 0 }] } 0 "t1"

/-- Purchase of 1 unit of `unitProduct` with the given raw unit-type string. -/
def unitPurchase (u : String) : Purchase :=
  mkPurchase { items := some [{ productId := "p2", productName := "", quantity := 1
                                unitType := u, unitPrice := 0, totalAmount := 0 }] } 0 "t1"

/-- Stock of `unitProduct` after reconciling `unitSale u`. -/
def saleStockAfter (u : String) : Option Stock :=
  productStock (applyStockChangesFromSale (unitSale u) unitDB 1 "t1").1 "p2"

/-- Stock of `unitProduct` after reconciling `unitPurchase u`. -/
def purchaseStockAfter (u : String) : Option Stock :=
  productStock (applyStockChangesFromPurchase (unitPurchase u) unitDB "t1") "p2"

/-- The unit-type strings the sale-side dispatch recognizes. -/
def saleRecognizedUnits : List String :=
  ["box", "boxes", "piece", "pieces", "sft", "s.f.t", "squarefeet", "square feet"]

/-- The unit-type strings the purchase-side dispatch recognizes. -/
def purchaseRecognizedUnits : List String :=
  ["box", "boxes", "piece", "pieces", "sft", "squarefeet", "square feet"]

/-- A sale line item referring to a product id that exists in no document. -/
def ghostItem : LineItem :=
  { productId := "ghost", productName := "", quantity := 3, unitType := "box"
    unitPrice := 0, totalAmount := 0 }

/-- A well-formed line item selling one box of `unitProduct`. -/
def p2BoxItem : LineItem :=
  { productId := "p2", productName := "", quantity := 1, unitType := "box"
    unitPrice := 0, totalAmount := 0 }

/-- A sale whose first item refers to a missing product and whose second item
is well-formed. -/
def mixedSale : Sale := mkSale { items := some [ghostItem, p2BoxItem] } 0 "t1"

/-- Stored document of the migration example: schema version 0 with data in
every collection. -/
def oldStored : OldDoc :=
  { meta := some { version := 0, createdAt := "t0", updatedAt := "t0" }
    products := some [exProduct]
    sales := some []
    purchases := none
    alerts := some [{ id := "a1", productId := "p1", productName := "Tile A"
                      currentStock := ⟨1, 0, 0⟩, minRequired := 2, alertDate := "t0"
                      resolved := false, resolvedAt := none }]
    users := some [{ id := "u1" }] }

/-- Controller state of the `saveDB` example: nothing persisted, empty cache. -/
def exStore0 : StoreState := { stored := .absent, cache := none }

/-- Document of the `saveDB` example, last updated at `"t0"`. -/
def exDoc9 : Document := emptyDB "t0"

/-! # Theorems -/

section Theorems

attribute [local semireducible] Rat.sub Rat.add Rat.mul Rat.inv

theorem unresolvedFor_append (xs ys : List Alert) (pid : String) :
    unresolvedFor (xs ++ ys) pid = unresolvedFor xs pid + unresolvedFor ys pid := by
  simp [unresolvedFor, List.filter_append]

theorem unresolvedFor_eq_zero (alerts : List Alert) (pid : String)
    (h : alerts.find? (fun a => a.productId == pid && !a.resolved) = none) :
    unresolvedFor alerts pid = 0 := by
  rw [List.find?_eq_none] at h
  have : alerts.filter (fun a => a.productId == pid && !a.resolved) = [] :=
    List.filter_eq_nil_iff.mpr h
  simp [unresolvedFor, this]

theorem saleItemStep_alerts_cases (now : String) (st : SaleRecState) (item : LineItem) :
    (saleItemStep now st item).alerts = st.alerts ∨
    ∃ a : Alert, (saleItemStep now st item).alerts = st.alerts ++ [a] ∧ a.resolved = false ∧
      st.alerts.find? (fun x => x.productId == a.productId && !x.resolved) = none := by
  unfold saleItemStep
  cases hf : st.products.find? (fun p => p.id == item.productId) with
  | none => exact Or.inl rfl
  | some product =>
    dsimp only
    by_cases hc :
        lowStockCond
          ((applySaleStock product (jsToLower item.unitType)
              (toNumber item.quantity)).currentStock.getD defaultStock)
          (toNumber (applySaleStock product (jsToLower item.unitType)
              (toNumber item.quantity)).minStock)
    · rw [if_pos hc]
      cases ha : st.alerts.find?
          (fun a => a.productId ==
              (applySaleStock product (jsToLower item.unitType)
                (toNumber item.quantity)).id && !a.resolved) with
      | none => exact Or.inr ⟨_, rfl, rfl, ha⟩
      | some _ => exact Or.inl rfl
    · rw [if_neg hc]; exact Or.inl rfl

theorem alertInvariant_saleItemStep (now : String) (st : SaleRecState) (item : LineItem)
    (h : alertInvariant st.alerts) : alertInvariant (saleItemStep now st item).alerts := by
  rcases saleItemStep_alerts_cases now st item with heq | ⟨a, heq, hres, hnone⟩
  · rw [heq]; exact h
  · intro pid
    rw [heq, unresolvedFor_append]
    by_cases hpid : a.productId = pid
    · have h0 : unresolvedFor st.alerts pid = 0 := by
        refine unresolvedFor_eq_zero _ _ ?_
        rw [← hpid]; exact hnone
      have h1 : unresolvedFor [a] pid = 1 := by
        simp [unresolvedFor, hres, hpid]
      omega
    · have h1 : unresolvedFor [a] pid = 0 := by
        simp [unresolvedFor, hres, hpid]
      have := h pid
      omega

theorem alertInvariant_saleFold (now : String) (items : List LineItem) (st : SaleRecState)
    (h : alertInvariant st.alerts) :
    alertInvariant (items.foldl (saleItemStep now) st).alerts := by
  induction items generalizing st with
  | nil => exact h
  | cons i is ih => exact ih _ (alertInvariant_saleItemStep now st i h)

/-- C1: recording a sale of 4 boxes against a product with 5 boxes in stock and
`minStock = 2` leaves 1 box and exactly one unresolved alert; a further sale of
1 box still leaves exactly one alert record and one unresolved alert; and in
general `_applyStockChangesFromSale` preserves the invariant of at most one
unresolved alert per product. -/
theorem C1_sale_reconciliation_alert_invariant :
    (productStock exStep1.2.1 "p1" = some ⟨1, 0, 0⟩ ∧
      unresolvedFor exStep1.2.1.alerts "p1" = 1 ∧
      exStep1.2.1.alerts.length = 1 ∧
      unresolvedFor exStep2.2.1.alerts "p1" = 1 ∧
      exStep2.2.1.alerts.length = 1) ∧
    ∀ (sale : Sale) (db : Document) (gen : Nat) (now : String),
      alertInvariant db.alerts →
      alertInvariant (applyStockChangesFromSale sale db gen now).1.alerts := by
  constructor
  · exact ⟨by decide, by decide, by decide, by decide, by decide⟩
  · intro sale db gen now h
    exact alertInvariant_saleFold now sale.items ⟨db.products, db.alerts, gen⟩ h

/-- Witness for C1: the general invariant-preservation component applied to the
concrete first-sale reconciliation starting from the alert-free document. -/
theorem C1_witness :
    alertInvariant
      (applyStockChangesFromSale (mkSale { items := some [exItem 4] } 0 "t1")
        exDB0 1 "t1").1.alerts :=
  C1_sale_reconciliation_alert_invariant.2 _ _ _ _
    (fun pid => by simp [exDB0, emptyDB, unresolvedFor])

theorem resolveAlertsFor_eq_self (pid now : String) (alerts : List Alert)
    (h : alerts.any (fun a => a.productId == pid && !a.resolved) = false) :
    resolveAlertsFor pid now alerts = alerts := by
  induction alerts with
  | nil => rfl
  | cons a rest ih =>
    simp only [List.any_cons, Bool.or_eq_false_iff] at h
    simp only [resolveAlertsFor, List.map_cons, h.1, Bool.false_eq_true, if_false]
    have : resolveAlertsFor pid now rest = rest := ih h.2
    simp only [resolveAlertsFor] at this
    rw [this]

theorem resolveAlertsFor_id_preserved (pid now : String) (a : Alert) :
    ((fun a : Alert =>
        if a.productId == pid && !a.resolved then
          { a with resolved := true, resolvedAt := some now }
        else a) a).id = a.id := by
  by_cases h : (a.productId == pid && !a.resolved) = true
  · simp [h]
  · simp [h]

/-- C2: recording a single-item purchase whose increment puts some counter of
the matched product at/above a positive `minStock` marks every unresolved
alert of that product resolved with `resolvedAt` stamped; the alert records
are retained (same count, same ids), never deleted. -/
theorem C2_purchase_resolves_alerts
    (pdata : PurchaseData) (item : LineItem) (db : Document) (gen : Nat) (now : String)
    (product : Product)
    (hitems : pdata.items = some [item])
    (hfind : db.products.find? (fun p => p.id == item.productId) = some product)
    (hcond : backAboveCond
      ((applyPurchaseStock product (jsToLower item.unitType)
          (toNumber item.quantity)).currentStock.getD defaultStock)
      (toNumber (applyPurchaseStock product (jsToLower item.unitType)
          (toNumber item.quantity)).minStock)) :
    (addPurchase pdata db gen now).2.alerts = resolveAlertsFor product.id now db.alerts ∧
    (addPurchase pdata db gen now).2.alerts.length = db.alerts.length ∧
    (∀ a ∈ db.alerts, a.productId = product.id → a.resolved = false →
      { a with resolved := true, resolvedAt := some now } ∈
        (addPurchase pdata db gen now).2.alerts) ∧
    (∀ a ∈ db.alerts, ∃ b ∈ (addPurchase pdata db gen now).2.alerts, b.id = a.id) := by
  have exp : (addPurchase pdata db gen now).2.alerts = resolveAlertsFor product.id now db.alerts := by
    unfold addPurchase applyStockChangesFromPurchase
    simp only [mkPurchase, hitems, Option.getD_some, List.foldl_cons, List.foldl_nil]
    unfold purchaseItemStep
    simp only [hfind]
    rw [if_pos hcond]
    by_cases hch :
        db.alerts.any (fun a => a.productId ==
          (applyPurchaseStock product (jsToLower item.unitType)
            (toNumber item.quantity)).id && !a.resolved) = true
    · simp only [hch, if_true]
      have hid : (applyPurchaseStock product (jsToLower item.unitType)
          (toNumber item.quantity)).id = product.id := rfl
      rw [hid]
    · simp only [eq_false_of_ne_true hch, Bool.false_eq_true, if_false]
      exact (resolveAlertsFor_eq_self product.id now db.alerts
        (eq_false_of_ne_true hch)).symm
  refine ⟨exp, ?_, ?_, ?_⟩
  · rw [exp]; simp [resolveAlertsFor]
  · intro a ha hpid hres
    rw [exp]
    simp only [resolveAlertsFor, List.mem_map]
    refine ⟨a, ha, ?_⟩
    simp [hpid, hres]
  · intro a ha
    rw [exp]
    refine ⟨_, List.mem_map_of_mem _ ha, ?_⟩
    exact resolveAlertsFor_id_preserved product.id now a

/-- Witness for C2: the worked example's restocking purchase of 5 boxes
resolves the alert created by the earlier sales and retains the record. -/
theorem C2_witness :
    exStep3.2.alerts = resolveAlertsFor "p1" "t3" exStep2.2.1.alerts ∧
    exStep3.2.alerts.length = exStep2.2.1.alerts.length ∧
    (∀ a ∈ exStep2.2.1.alerts, a.productId = "p1" → a.resolved = false →
      { a with resolved := true, resolvedAt := some "t3" } ∈ exStep3.2.alerts) ∧
    (∀ a ∈ exStep2.2.1.alerts, ∃ b ∈ exStep3.2.alerts, b.id = a.id) :=
  C2_purchase_resolves_alerts { items := some [exItem 5] } (exItem 5) exStep2.2.1
    exStep2.2.2 "t3" { exProduct with currentStock := some ⟨0, 0, 0⟩ }
    rfl (by decide) (by decide)

theorem saleF_sales_preserved (mask : Nat → Bool) (sale : Sale) (db : Document) (gen : Nat)
    (now : String) :
    (match applyStockChangesFromSaleF mask sale db gen now with
      | .error (x, _) => x.sales
      | .ok (x, _) => x.sales) = db.sales := by
  unfold applyStockChangesFromSaleF
  rcases sale.items.foldlM (saleItemStepF mask now) ⟨db.products, db.alerts, gen, 0⟩ with
    ⟨a, g⟩ | st
  · rfl
  · by_cases hm : mask st.saveIx = true
    · simp [hm]
    · simp only [Bool.not_eq_true] at hm
      simp [hm]

theorem saleF_ok_sales (mask : Nat → Bool) (sale : Sale) (db : Document) (gen : Nat)
    (now : String) (d : Document) (g : Nat)
    (h : applyStockChangesFromSaleF mask sale db gen now = .ok (d, g)) :
    d.sales = db.sales := by
  have key := saleF_sales_preserved mask sale db gen now
  rw [h] at key
  exact key

theorem saleF_err_sales (mask : Nat → Bool) (sale : Sale) (db : Document) (gen : Nat)
    (now : String) (d : Document) (g : Nat)
    (h : applyStockChangesFromSaleF mask sale db gen now = .error (d, g)) :
    d.sales = db.sales := by
  have key := saleF_sales_preserved mask sale db gen now
  rw [h] at key
  exact key

theorem purchaseF_purchases_preserved (mask : Nat → Bool) (purchase : Purchase)
    (db : Document) (now : String) :
    (match applyStockChangesFromPurchaseF mask purchase db now with
      | .error x => x.purchases
      | .ok x => x.purchases) = db.purchases := by
  unfold applyStockChangesFromPurchaseF
  rcases purchase.items.foldlM (purchaseItemStepF mask now) ⟨db.products, db.alerts, 0⟩ with
    a | st
  · rfl
  · by_cases hm : mask st.saveIx = true
    · simp [hm]
    · simp only [Bool.not_eq_true] at hm
      simp [hm]

theorem purchaseF_ok_purchases (mask : Nat → Bool) (purchase : Purchase) (db : Document)
    (now : String) (d : Document)
    (h : applyStockChangesFromPurchaseF mask purchase db now = .ok d) :
    d.purchases = db.purchases := by
  have key := purchaseF_purchases_preserved mask purchase db now
  rw [h] at key
  exact key

theorem purchaseF_err_purchases (mask : Nat → Bool) (purchase : Purchase) (db : Document)
    (now : String) (d : Document)
    (h : applyStockChangesFromPurchaseF mask purchase db now = .error d) :
    d.purchases = db.purchases := by
  have key := purchaseF_purchases_preserved mask purchase db now
  rw [h] at key
  exact key

/-- C3: whatever save attempts of the reconciliation step fail (`mask` picks
the failing attempts), `addSale`/`addPurchase` still return the created
transaction record and the persisted record remains in its collection; with
every save failing, the reconciliation step really does throw (so the caught
error case is reachable — the final products save always runs). -/
theorem C3_reconciliation_failure_is_caught :
    ∀ (mask : Nat → Bool) (saleData : SaleData) (purchaseData : PurchaseData)
      (db db' : Document) (gen gen' : Nat) (now now' : String),
      (addSaleF mask saleData db gen now).1 = mkSale saleData gen now ∧
      (addSaleF mask saleData db gen now).2.1.sales
        = db.sales ++ [(addSaleF mask saleData db gen now).1] ∧
      (addPurchaseF mask purchaseData db' gen' now').1 = mkPurchase purchaseData gen' now' ∧
      (addPurchaseF mask purchaseData db' gen' now').2.purchases
        = db'.purchases ++ [(addPurchaseF mask purchaseData db' gen' now').1] ∧
      (∃ dE gE, applyStockChangesFromSaleF (fun _ => true) (mkSale saleData gen now)
        { db with sales := db.sales ++ [mkSale saleData gen now] } (gen + 1) now
        = .error (dE, gE)) := by
  intro mask saleData purchaseData db db' gen gen' now now'
  refine ⟨?_, ?_, ?_, ?_, ?_⟩
  · simp only [addSaleF]
    rcases happ : applyStockChangesFromSaleF mask (mkSale saleData gen now)
        { db with sales := db.sales ++ [mkSale saleData gen now] } (gen + 1) now with
      ⟨d, g⟩ | ⟨d, g⟩ <;> rfl
  · simp only [addSaleF]
    rcases happ : applyStockChangesFromSaleF mask (mkSale saleData gen now)
        { db with sales := db.sales ++ [mkSale saleData gen now] } (gen + 1) now with
      ⟨d, g⟩ | ⟨d, g⟩
    · exact (saleF_err_sales _ _ _ _ _ _ _ happ).trans rfl
    · exact (saleF_ok_sales _ _ _ _ _ _ _ happ).trans rfl
  · simp only [addPurchaseF]
    rcases happ : applyStockChangesFromPurchaseF mask (mkPurchase purchaseData gen' now')
        { db' with purchases := db'.purchases ++ [mkPurchase purchaseData gen' now'] } now' with
      d | d <;> rfl
  · simp only [addPurchaseF]
    rcases happ : applyStockChangesFromPurchaseF mask (mkPurchase purchaseData gen' now')
        { db' with purchases := db'.purchases ++ [mkPurchase purchaseData gen' now'] } now' with
      d | d
    · exact (purchaseF_err_purchases _ _ _ _ _ happ).trans rfl
    · exact (purchaseF_ok_purchases _ _ _ _ _ happ).trans rfl
  · unfold applyStockChangesFromSaleF
    rcases (mkSale saleData gen now).items.foldlM (saleItemStepF (fun _ => true) now)
        ⟨({ db with sales := db.sales ++ [mkSale saleData gen now] } : Document).products,
         ({ db with sales := db.sales ++ [mkSale saleData gen now] } : Document).alerts,
         gen + 1, 0⟩ with ⟨a, g⟩ | st
    · exact ⟨_, _, rfl⟩
    · exact ⟨_, _, rfl⟩

/-- C4 counterexample: a sale item with unitType `"sqft"` does NOT decrement
`currentStock.sft` (which the claim asserts); the reconciliation dispatch does
not recognize `"sqft"` (only `normalizeUnitName` in js/utils.js does, and the
reconciliation does not call it), so the delta lands on the piece counter. -/
theorem C4_counterexample :
    saleStockAfter "sqft" = some ⟨10, 9, 10⟩ ∧
    saleStockAfter "sqft" ≠ some ⟨10, 10, 9⟩ := by
  constructor
  · decide
  · decide

/-- C4 (amended): reconciliation matches the item's unitType case-insensitively
(the outcome depends only on the lowercased string); the sale dispatch
recognizes box/boxes, piece/pieces, sft/s.f.t/squarefeet/"square feet" and the
purchase dispatch the same minus "s.f.t"; `"sqft"` is NOT recognized by either
dispatch and — like every unrecognized unit type — is applied to the piece
counter. -/
theorem C4_unit_dispatch_amended :
    (∀ (item : LineItem) (u' now : String) (st : SaleRecState) (stp : PurchRecState),
      jsToLower item.unitType = jsToLower u' →
      saleItemStep now st item = saleItemStep now st { item with unitType := u' } ∧
      purchaseItemStep now stp item = purchaseItemStep now stp { item with unitType := u' }) ∧
    (∀ (p : Product) (u : String) (qty : ℚ), u ∉ saleRecognizedUnits →
      applySaleStock p u qty = applySaleStock p "piece" qty) ∧
    (∀ (p : Product) (u : String) (qty : ℚ), u ∉ purchaseRecognizedUnits →
      applyPurchaseStock p u qty = applyPurchaseStock p "piece" qty) ∧
    (saleStockAfter "Boxes" = some ⟨9, 10, 10⟩ ∧
      saleStockAfter "PIECES" = some ⟨10, 9, 10⟩ ∧
      saleStockAfter "Square Feet" = some ⟨10, 10, 9⟩ ∧
      saleStockAfter "squarefeet" = some ⟨10, 10, 9⟩ ∧
      saleStockAfter "S.F.T" = some ⟨10, 10, 9⟩ ∧
      saleStockAfter "kg" = some ⟨10, 9, 10⟩ ∧
      purchaseStockAfter "Boxes" = some ⟨11, 10, 10⟩ ∧
      purchaseStockAfter "PIECES" = some ⟨10, 11, 10⟩ ∧
      purchaseStockAfter "Square Feet" = some ⟨10, 10, 11⟩ ∧
      purchaseStockAfter "s.f.t" = some ⟨10, 11, 10⟩ ∧
      purchaseStockAfter "sqft" = some ⟨10, 11, 10⟩) := by
  refine ⟨?_, ?_, ?_, ?_⟩
  · intro item u' now st stp h
    constructor
    · unfold saleItemStep
      simp only [h]
    · unfold purchaseItemStep
      simp only [h]
  · intro p u qty hu
    simp only [saleRecognizedUnits, List.mem_cons, List.not_mem_nil, or_false, not_or] at hu
    obtain ⟨h1, h2, h3, h4, h5, h6, h7, h8⟩ := hu
    have nb : ¬(u = "box" ∨ u = "boxes") := by simp [h1, h2]
    have np : ¬(u = "piece" ∨ u = "pieces") := by simp [h3, h4]
    have ns : ¬(u = "sft" ∨ u = "s.f.t" ∨ u = "squarefeet" ∨ u = "square feet") := by
      simp [h5, h6, h7, h8]
    simp only [applySaleStock]
    rw [if_neg nb, if_neg np, if_neg ns]
    simp
  · intro p u qty hu
    simp only [purchaseRecognizedUnits, List.mem_cons, List.not_mem_nil, or_false, not_or] at hu
    obtain ⟨h1, h2, h3, h4, h5, h6, h7⟩ := hu
    have nb : ¬(u = "box" ∨ u = "boxes") := by simp [h1, h2]
    have np : ¬(u = "piece" ∨ u = "pieces") := by simp [h3, h4]
    have ns : ¬(u = "sft" ∨ u = "squarefeet" ∨ u = "square feet") := by
      simp [h5, h6, h7]
    simp only [applyPurchaseStock]
    rw [if_neg nb, if_neg np, if_neg ns]
    simp
  · exact ⟨by decide, by decide, by decide, by decide, by decide, by decide, by decide,
      by decide, by decide, by decide, by decide⟩

/-- Witness for C4 (amended): `"sqft"` is unrecognized by the sale dispatch,
so it behaves exactly like `"piece"`. -/
theorem C4_witness :
    applySaleStock unitProduct "sqft" 1 = applySaleStock unitProduct "piece" 1 :=
  C4_unit_dispatch_amended.2.1 unitProduct "sqft" 1 (by decide)

theorem replaceFirst_map_id (ps : List Product) (pid : String) (q p0 : Product)
    (hf : ps.find? (fun p => p.id == pid) = some p0) (hq : q.id = p0.id) :
    (replaceFirst ps pid (fun _ => q)).map (fun p => p.id) = ps.map (fun p => p.id) := by
  induction ps with
  | nil => simp at hf
  | cons p rest ih =>
    by_cases hp : (p.id == pid) = true
    · simp only [List.find?_cons, hp] at hf
      obtain rfl : p = p0 := by injection hf
      unfold replaceFirst
      rw [if_pos hp]
      simp [hq]
    · rw [Bool.not_eq_true] at hp
      simp only [List.find?_cons, hp] at hf
      unfold replaceFirst
      rw [if_neg (by simp [hp])]
      simp [ih hf]

theorem saleItemStep_products_ids (now : String) (st : SaleRecState) (item : LineItem) :
    (saleItemStep now st item).products.map (fun p => p.id)
      = st.products.map (fun p => p.id) := by
  unfold saleItemStep
  cases hf : st.products.find? (fun p => p.id == item.productId) with
  | none => rfl
  | some product =>
    dsimp only
    have base := replaceFirst_map_id st.products item.productId
      (applySaleStock product (jsToLower item.unitType) (toNumber item.quantity)) product hf rfl
    by_cases hc :
        lowStockCond
          ((applySaleStock product (jsToLower item.unitType)
              (toNumber item.quantity)).currentStock.getD defaultStock)
          (toNumber (applySaleStock product (jsToLower item.unitType)
              (toNumber item.quantity)).minStock)
    · rw [if_pos hc]
      cases ha : st.alerts.find?
          (fun a => a.productId ==
              (applySaleStock product (jsToLower item.unitType)
                (toNumber item.quantity)).id && !a.resolved) with
      | none => exact base
      | some _ => exact base
    · rw [if_neg hc]
      exact base

theorem saleItemStep_skip (now : String) (st : SaleRecState) (item : LineItem)
    (h : st.products.find? (fun p => p.id == item.productId) = none) :
    saleItemStep now st item = st := by
  unfold saleItemStep
  rw [h]

theorem saleFold_no_pid (now : String) (items : List LineItem) (st : SaleRecState)
    (pid : String) (h : ∀ p ∈ st.products, p.id ≠ pid) :
    ∀ p ∈ (items.foldl (saleItemStep now) st).products, p.id ≠ pid := by
  induction items generalizing st with
  | nil => exact h
  | cons i is ih =>
    refine ih _ ?_
    intro p hp
    have hid := saleItemStep_products_ids now st i
    have hmem : p.id ∈ st.products.map (fun p => p.id) := by
      rw [← hid]
      exact List.mem_map_of_mem _ hp
    obtain ⟨p0, hp0, hpe⟩ := List.mem_map.mp hmem
    rw [← hpe]
    exact h p0 hp0

/-- C5: a sale line item whose productId matches no product is skipped without
error: reconciling a sale containing such an item (anywhere in the item list)
produces exactly the same document and id counter as reconciling the sale with
that item removed — every other item is still processed. -/
theorem C5_missing_product_item_skipped
    (sale : Sale) (db : Document) (gen : Nat) (now : String)
    (pre post : List LineItem) (bad : LineItem)
    (hitems : sale.items = pre ++ bad :: post)
    (hmissing : ∀ p ∈ db.products, p.id ≠ bad.productId) :
    applyStockChangesFromSale sale db gen now
      = applyStockChangesFromSale { sale with items := pre ++ post } db gen now := by
  unfold applyStockChangesFromSale
  rw [hitems]
  have hproj : ({ sale with items := pre ++ post } : Sale).items = pre ++ post := rfl
  rw [hproj, List.foldl_append, List.foldl_cons, List.foldl_append]
  have hmid : ∀ p ∈ ((pre.foldl (saleItemStep now) ⟨db.products, db.alerts, gen⟩).products),
      p.id ≠ bad.productId :=
    saleFold_no_pid now pre ⟨db.products, db.alerts, gen⟩ bad.productId hmissing
  have hfind : (pre.foldl (saleItemStep now) ⟨db.products, db.alerts, gen⟩).products.find?
      (fun p => p.id == bad.productId) = none := by
    rw [List.find?_eq_none]
    intro p hp
    simp [hmid p hp]
  rw [saleItemStep_skip now _ bad hfind]

/-- Witness for C5: the sale whose first item refers to the nonexistent
product `"ghost"` reconciles exactly like the same sale without that item. -/
theorem C5_witness :
    applyStockChangesFromSale mixedSale unitDB 0 "t1"
      = applyStockChangesFromSale { mixedSale with items := [p2BoxItem] } unitDB 0 "t1" :=
  C5_missing_product_item_skipped mixedSale unitDB 0 "t1" [] [p2BoxItem] ghostItem rfl
    (by decide)

/-- C6: loading a stored document whose `meta` is missing or whose
`meta.version` differs from the current schema version returns — and persists —
a fresh current-version document carrying over the old `products`, `sales` and
`purchases` when present, with `alerts` and `users` dropped. -/
theorem C6_lossy_migration (od : OldDoc) (now : String)
    (hmismatch : ∀ m, od.meta = some m → m.version ≠ DB_VERSION) :
    (LocalStorageAdapter.load (.parsed od) now).1.products = od.products.getD [] ∧
    (LocalStorageAdapter.load (.parsed od) now).1.sales = od.sales.getD [] ∧
    (LocalStorageAdapter.load (.parsed od) now).1.purchases = od.purchases.getD [] ∧
    (LocalStorageAdapter.load (.parsed od) now).1.alerts = [] ∧
    (LocalStorageAdapter.load (.parsed od) now).1.users = [] ∧
    (LocalStorageAdapter.load (.parsed od) now).1.meta.version = DB_VERSION ∧
    (LocalStorageAdapter.load (.parsed od) now).2
      = .parsed (toOld (LocalStorageAdapter.load (.parsed od) now).1) := by
  cases hm : od.meta with
  | none => simp [LocalStorageAdapter.load, hm, toOld, emptyDB]
  | some m =>
    have hv := hmismatch m hm
    simp [LocalStorageAdapter.load, hm, hv, toOld, emptyDB]

/-- Witness for C6: migrating the stored version-0 document keeps its
products/sales, defaults the absent purchases, and drops alerts and users. -/
theorem C6_witness :
    (LocalStorageAdapter.load (.parsed oldStored) "t1").1.products
        = oldStored.products.getD [] ∧
    (LocalStorageAdapter.load (.parsed oldStored) "t1").1.sales = oldStored.sales.getD [] ∧
    (LocalStorageAdapter.load (.parsed oldStored) "t1").1.purchases
        = oldStored.purchases.getD [] ∧
    (LocalStorageAdapter.load (.parsed oldStored) "t1").1.alerts = [] ∧
    (LocalStorageAdapter.load (.parsed oldStored) "t1").1.users = [] ∧
    (LocalStorageAdapter.load (.parsed oldStored) "t1").1.meta.version = DB_VERSION ∧
    (LocalStorageAdapter.load (.parsed oldStored) "t1").2
      = .parsed (toOld (LocalStorageAdapter.load (.parsed oldStored) "t1").1) :=
  C6_lossy_migration oldStored "t1"
    (fun m hm => by
      have : m = { version := 0, createdAt := "t0", updatedAt := "t0" } := by
        have h' := hm.symm.trans (rfl : oldStored.meta = some ⟨0, "t0", "t0", none⟩)
        injection h'
      rw [this]; decide)

/-- C7: exporting the whole document and re-importing the result with
`merge = false` reproduces all four data collections exactly. -/
theorem C7_export_import_roundtrip (d db' : Document) (now : String) :
    (importDB (exportDB d) false db' now).products = d.products ∧
    (importDB (exportDB d) false db' now).sales = d.sales ∧
    (importDB (exportDB d) false db' now).purchases = d.purchases ∧
    (importDB (exportDB d) false db' now).alerts = d.alerts := by
  unfold importDB exportDB toOld
  simp

/-- C8: `convertUnits(10,'box','sft',0,50) = 500` and
`convertUnits(10,'piece','box',0,50)` is the `NaN` sentinel; in general (for
recognized units and nonnegative factors) the sentinel is returned exactly
when the units differ and a required factor is zero, and otherwise the result
is the pivot-converted quantity rounded to 3 decimals. -/
theorem C8_convertUnits_sentinel :
    convertUnits 10 "box" "sft" 0 50 = some 500 ∧
    convertUnits 10 "piece" "box" 0 50 = none ∧
    ∀ (q ppb spb : ℚ) (f t : String),
      0 ≤ ppb → 0 ≤ spb →
      normalizeUnitName f ∈ (["box", "piece", "sft"] : List String) →
      normalizeUnitName t ∈ (["box", "piece", "sft"] : List String) →
      (convertUnits q f t ppb spb = none ↔
        conversionUnavailable (normalizeUnitName f) (normalizeUnitName t) ppb spb) ∧
      (¬ conversionUnavailable (normalizeUnitName f) (normalizeUnitName t) ppb spb →
        convertUnits q f t ppb spb
          = some (roundTo (specPivotConvert q (normalizeUnitName f)
              (normalizeUnitName t) ppb spb))) := by
  refine ⟨by decide, by decide, ?_⟩
  intro q ppb spb f t hppb hspb hf ht
  simp only [List.mem_cons, List.not_mem_nil, or_false] at hf ht
  have hple : ppb = 0 → ppb ≤ 0 := fun h => le_of_eq h
  have hsle : spb = 0 → spb ≤ 0 := fun h => le_of_eq h
  rcases hf with h1 | h1 | h1 <;> rcases ht with h2 | h2 | h2
  · simp [convertUnits, toNumber, conversionUnavailable, specPivotConvert, h1, h2]
  · by_cases hp : ppb = 0
    · simp [convertUnits, toNumber, conversionUnavailable, specPivotConvert, h1, h2, hp, hple hp]
    · have hle : ¬ ppb ≤ 0 := fun hle => hp (le_antisymm hle hppb)
      simp [convertUnits, toNumber, conversionUnavailable, specPivotConvert, h1, h2, hp, hle]
  · by_cases hs : spb = 0
    · simp [convertUnits, toNumber, conversionUnavailable, specPivotConvert, h1, h2, hs, hsle hs]
    · have hle : ¬ spb ≤ 0 := fun hle => hs (le_antisymm hle hspb)
      simp [convertUnits, toNumber, conversionUnavailable, specPivotConvert, h1, h2, hs, hle]
  · by_cases hp : ppb = 0
    · simp [convertUnits, toNumber, conversionUnavailable, specPivotConvert, h1, h2, hp, hple hp]
    · have hle : ¬ ppb ≤ 0 := fun hle => hp (le_antisymm hle hppb)
      simp [convertUnits, toNumber, conversionUnavailable, specPivotConvert, h1, h2, hp, hle]
  · simp [convertUnits, toNumber, conversionUnavailable, specPivotConvert, h1, h2]
  · by_cases hp : ppb = 0
    · simp [convertUnits, toNumber, conversionUnavailable, specPivotConvert, h1, h2, hp, hple hp]
    · have hle : ¬ ppb ≤ 0 := fun hle => hp (le_antisymm hle hppb)
      by_cases hs : spb = 0
      · simp [convertUnits, toNumber, conversionUnavailable, specPivotConvert, h1, h2, hp, hle, hs,
          hsle hs]
      · have hle2 : ¬ spb ≤ 0 := fun hle2 => hs (le_antisymm hle2 hspb)
        simp [convertUnits, toNumber, conversionUnavailable, specPivotConvert, h1, h2, hp, hle, hs, hle2]
  · by_cases hs : spb = 0
    · simp [convertUnits, toNumber, conversionUnavailable, specPivotConvert, h1, h2, hs, hsle hs]
    · have hle : ¬ spb ≤ 0 := fun hle => hs (le_antisymm hle hspb)
      simp [convertUnits, toNumber, conversionUnavailable, specPivotConvert, h1, h2, hs, hle]
  · by_cases hs : spb = 0
    · simp [convertUnits, toNumber, conversionUnavailable, specPivotConvert, h1, h2, hs, hsle hs]
    · have hle : ¬ spb ≤ 0 := fun hle => hs (le_antisymm hle hspb)
      by_cases hp : ppb = 0
      · simp [convertUnits, toNumber, conversionUnavailable, specPivotConvert, h1, h2, hs, hle, hp,
          hple hp]
      · have hle2 : ¬ ppb ≤ 0 := fun hle2 => hp (le_antisymm hle2 hppb)
        simp [convertUnits, toNumber, conversionUnavailable, specPivotConvert, h1, h2, hs, hle, hp, hle2]
  · simp [convertUnits, toNumber, conversionUnavailable, specPivotConvert, h1, h2]

/-- Witness for C8: the general characterization applied to a piece→sft
conversion with a missing `piecesPerBox` but present `sftPerBox`. -/
theorem C8_witness :
    (convertUnits 10 "piece" "sft" 0 50 = none ↔
      conversionUnavailable (normalizeUnitName "piece") (normalizeUnitName "sft") 0 50) ∧
    (¬ conversionUnavailable (normalizeUnitName "piece") (normalizeUnitName "sft") 0 50 →
      convertUnits 10 "piece" "sft" 0 50
        = some (roundTo (specPivotConvert 10 (normalizeUnitName "piece")
            (normalizeUnitName "sft") 0 50))) :=
  C8_convertUnits_sentinel.2.2 10 0 50 "piece" "sft" (by decide) (by decide)
    (by decide) (by decide)

/-- C9 counterexample: after `saveDB` of a document last updated at `"t0"`
with current time `"t9"`, the value passed to the watchers and the document
returned by a subsequent unforced `loadDB` still carry `updatedAt = "t0"`,
not the refreshed `"t9"` — only the persisted copy is stamped (the cache is a
deep copy of the caller's object, taken from `dbObj`, not from the stamped
`toSave`). -/
theorem C9_counterexample :
    (loadDB (saveDB exDoc9 exStore0 "t9").1 "t9" false).1.meta.updatedAt = "t0" ∧
    (saveDB exDoc9 exStore0 "t9").2.meta.updatedAt = "t0" ∧
    (saveDB exDoc9 exStore0 "t9").1.stored
      = .parsed (toOld { exDoc9 with meta := { exDoc9.meta with updatedAt := "t9" } }) ∧
    ("t0" : String) ≠ "t9" := by
  exact ⟨by decide, by decide, by decide, by decide⟩

/-- C9 (amended): `saveDB` stamps the fresh `meta.updatedAt` only on the copy
handed to the adapter (the persisted state); the in-memory cache is replaced
with a deep copy of the caller's document as passed, each watcher receives
that unstamped state, and a subsequent unforced `loadDB` returns it —
carrying the document's original `meta.updatedAt`. -/
theorem C9_saveDB_amended (db : Document) (s : StoreState) (now : String) :
    (saveDB db s now).1.stored
      = .parsed (toOld { db with meta := { db.meta with updatedAt := now } }) ∧
    (saveDB db s now).1.cache = some db ∧
    (saveDB db s now).2 = db ∧
    (loadDB (saveDB db s now).1 now false).1 = db ∧
    (loadDB (saveDB db s now).1 now false).2 = (saveDB db s now).1 :=
  ⟨rfl, rfl, rfl, rfl, rfl⟩

/-- C10: every key present in the `productData` passed to `addProduct` —
including `id` and `dateAdded` — overrides the generated default in the stored
and returned product, so a caller-supplied id displaces the generated one and
`addProduct` does not guarantee id uniqueness: adding with an id that already
exists yields (at least) two products with that id. -/
theorem C10_addProduct_overrides
    (pd : ProductData) (db : Document) (gen : Nat) (now : String) :
    (∀ v p, pd.id = some v → p ∈ db.products → p.id = v →
      2 ≤ ((addProduct pd db gen now).2.products.filter (fun p' => p'.id == v)).length) ∧
    (addProduct pd db gen now).2.products = db.products ++ [(addProduct pd db gen now).1] ∧
    (∀ v, pd.id = some v → (addProduct pd db gen now).1.id = v) ∧
    (∀ v, pd.name = some v → (addProduct pd db gen now).1.name = v) ∧
    (∀ v, pd.category = some v → (addProduct pd db gen now).1.category = v) ∧
    (∀ v, pd.brand = some v → (addProduct pd db gen now).1.brand = v) ∧
    (∀ v, pd.sku = some v → (addProduct pd db gen now).1.sku = v) ∧
    (∀ v, pd.size = some v → (addProduct pd db gen now).1.size = v) ∧
    (∀ v, pd.unitType = some v → (addProduct pd db gen now).1.unitType = v) ∧
    (∀ v, pd.piecesPerBox = some v → (addProduct pd db gen now).1.piecesPerBox = v) ∧
    (∀ v, pd.sftPerBox = some v → (addProduct pd db gen now).1.sftPerBox = v) ∧
    (∀ v, pd.costPrice = some v → (addProduct pd db gen now).1.costPrice = v) ∧
    (∀ v, pd.sellingPricePerUnit = some v →
      (addProduct pd db gen now).1.sellingPricePerUnit = v) ∧
    (∀ v, pd.currentStock = some v → (addProduct pd db gen now).1.currentStock = some v) ∧
    (∀ v, pd.minStock = some v → (addProduct pd db gen now).1.minStock = v) ∧
    (∀ v, pd.supplierName = some v → (addProduct pd db gen now).1.supplierName = v) ∧
    (∀ v, pd.supplierContact = some v → (addProduct pd db gen now).1.supplierContact = v) ∧
    (∀ v, pd.location = some v → (addProduct pd db gen now).1.location = v) ∧
    (∀ v, pd.imageUrl = some v → (addProduct pd db gen now).1.imageUrl = v) ∧
    (∀ v, pd.dateAdded = some v → (addProduct pd db gen now).1.dateAdded = v) ∧
    (∀ v, pd.notes = some v → (addProduct pd db gen now).1.notes = v) := by
  refine ⟨?_, rfl, ?_, ?_, ?_, ?_, ?_, ?_, ?_, ?_, ?_, ?_, ?_, ?_, ?_, ?_, ?_, ?_, ?_, ?_, ?_⟩
  · intro v p hv hp hpv
    have hmemf : p ∈ db.products.filter (fun p' => p'.id == v) :=
      List.mem_filter.mpr ⟨hp, by simp [hpv]⟩
    have h1 : 0 < (db.products.filter (fun p' => p'.id == v)).length :=
      List.length_pos_of_mem hmemf
    have hid : (addProduct pd db gen now).1.id = v := by simp [addProduct, hv]
    have hsplit : (addProduct pd db gen now).2.products
        = db.products ++ [(addProduct pd db gen now).1] := rfl
    rw [hsplit, List.filter_append, List.length_append]
    have h2 : (List.filter (fun p' => p'.id == v) [(addProduct pd db gen now).1]).length = 1 := by
      simp [List.filter, hid]
    omega
  all_goals intro v hv
  all_goals simp [addProduct, hv]

/-- Witness for C10: adding a product whose `productData` carries the id of an
already-present product yields two products with that id. -/
theorem C10_witness :
    2 ≤ ((addProduct { id := some "p2" } unitDB 0 "t1").2.products.filter
      (fun p' => p'.id == "p2")).length :=
  (C10_addProduct_overrides { id := some "p2" } unitDB 0 "t1").1 "p2" unitProduct rfl
    (by decide) rfl

end Theorems

end TIA
